import Mathlib

/-!
Verification of `DisplayResUtil.py`, a command-line utility that reports,
lists and changes the primary display resolution.

The embedding models the observable behaviour of the program as a trace of
events: lines printed to stdout and native display-API calls issued.  The
host operating system and the answers of the native query APIs (the current
mode reported by `GetSystemMetrics` and the mode list enumerated by
`EnumDisplaySettings`) are parameters of the model, collected in `Env` and
`HostOS`.  Python exceptions are modelled with `Except PyError`.
-/

/-- The answers the native win32 query APIs give during one run:
`current` is what `_win32_get` returns (a pair of ints), `nativeModes` is
the sequence of (PelsWidth, PelsHeight) pairs produced by the
`EnumDisplaySettings(None, i)` loop in `_win32_get_modes`, in enumeration
order and possibly with duplicates. -/
structure Env where
  current : Int × Int
  nativeModes : List (Int × Int)
deriving DecidableEq, Repr

/-- The value of `sys.platform`, abstracted to the four cases the code
distinguishes: `win32`, a platform starting with `linux`, one starting
with `darwin`, and anything else. -/
inductive HostOS where
  | win32
  | linux
  | darwin
  | other
deriving DecidableEq, Repr

/-- Python exceptions that the program can raise.  `notImplemented` is
`NotImplementedError` (raised by the linux and darwin stubs);
`typeError` is `TypeError` (raised e.g. by `x not in None` or `None[0]`).
`unsupportedPlatform` is modelled from the spec: the spec names an
`UnsupportedPlatformError` kind; no code in the repository defines or
raises it, the constructor exists only so the spec claim about it can be
stated. -/
inductive PyError where
  | notImplemented
  | typeError
  | unsupportedPlatform
deriving DecidableEq, Repr

/-- A native display-API call issued by a backend.
`getSystemMetrics` stands for the `_win32_get` query
(`GetSystemMetrics(0)` / `GetSystemMetrics(1)`), `enumDisplaySettings`
for an `EnumDisplaySettings` enumeration, `changeDisplaySettingsDefault`
for `ChangeDisplaySettings(None, 0)` and `changeDisplaySettingsMode`
for `ChangeDisplaySettings(mode, 0)` with the DEVMODE fields
`PelsWidth`, `PelsHeight`, `BitsPerPel` set to the given values. -/
inductive NativeCall where
  | getSystemMetrics
  | enumDisplaySettings
  | changeDisplaySettingsDefault
  | changeDisplaySettingsMode (w h depth : Int)
deriving DecidableEq, Repr

/-- One observable event: a line printed to stdout or a native call. -/
inductive Event where
  | print (s : String)
  | native (c : NativeCall)
deriving DecidableEq, Repr

/-- The mode-change (apply) calls contained in a trace:
every `ChangeDisplaySettings` invocation, in order. -/
def applyCalls (events : List Event) : List NativeCall :=
  events.filterMap fun e =>
    match e with
    | Event.native NativeCall.changeDisplaySettingsDefault =>
        some NativeCall.changeDisplaySettingsDefault
    | Event.native (NativeCall.changeDisplaySettingsMode w h d) =>
        some (NativeCall.changeDisplaySettingsMode w h d)
    | _ => none

/-- Rendering of a value in a Python f-string: `None` prints as "None",
an int prints as its decimal representation. -/
def fmtOpt : Option Int → String
  | none => "None"
  | some n => toString n

/-- Python truthiness of an optional int: `None` and `0` are falsy. -/
def truthy : Option Int → Bool
  | none => false
  | some n => n != 0

/-- Python membership test `(width, height) in modes` where `modes` holds
pairs of ints: a tuple containing `None` is never a member. -/
def pyMember (modes : List (Int × Int)) : Option Int → Option Int → Prop
  | some w, some h => (w, h) ∈ modes
  | some _, none => False
  | none, some _ => False
  | none, none => False

instance (modes : List (Int × Int)) :
    (width height : Option Int) → Decidable (pyMember modes width height)
  | some w, some h => inferInstanceAs (Decidable ((w, h) ∈ modes))
  | some _, none => inferInstanceAs (Decidable False)
  | none, some _ => inferInstanceAs (Decidable False)
  | none, none => inferInstanceAs (Decidable False)

/-- One step of building a Python set, modelled as a duplicate-free list
in first-insertion order: `modes.add(x)`. -/
def pySetInsert (acc : List (Int × Int)) (x : Int × Int) : List (Int × Int) :=
  if x ∈ acc then acc else acc ++ [x]

/-- The Python set built by adding the elements of `l` in order. -/
def pySet (l : List (Int × Int)) : List (Int × Int) :=
  l.foldl pySetInsert []

/-- The sort key of `get_modes_sorted`: `lambda x: x[0] * x[1]`. -/
def area (m : Int × Int) : Int := m.1 * m.2

/-- The order `sorted(..., key=area, reverse=True)` sorts by: `a` comes
before `b` when `area a ≥ area b`; Python sorting is stable. -/
def byAreaDesc (a b : Int × Int) : Prop := area b ≤ area a

instance : DecidableRel byAreaDesc := fun a b =>
  inferInstanceAs (Decidable (area b ≤ area a))

instance : IsTotal (Int × Int) byAreaDesc :=
  ⟨fun a b => le_total (area b) (area a)⟩

instance : IsTrans (Int × Int) byAreaDesc :=
  ⟨fun _ _ _ h1 h2 => le_trans h2 h1⟩

/-- One line of the mode listing: `f"    {mode[0]} x {mode[1]}"`, with
`" *"` appended when the mode equals the current mode. -/
def modeLine (current : Int × Int) (m : Int × Int) : String :=
  if m = current then
    "    " ++ toString m.1 ++ " x " ++ toString m.2 ++ " *"
  else
    "    " ++ toString m.1 ++ " x " ++ toString m.2

/-- The success message printed in `set` just before dispatching to the
native apply call: `if width and height:` picks the explicit form, the
falsy case prints the defaults form. -/
def setMsg (width height : Option Int) : String :=
  if truthy width && truthy height then
    "Setting resolution to " ++ fmtOpt width ++ " x " ++ fmtOpt height
  else
    "Setting resolution to defaults"

/-- `DisplayResUtil._win32_get`: returns the pair reported by
`GetSystemMetrics`. -/
def DisplayResUtil.win32_get (env : Env) : Int × Int := env.current

/-- `DisplayResUtil._win32_get_modes`: enumerates display settings and
collects the (width, height) pairs into a set. -/
def DisplayResUtil.win32_get_modes (env : Env) : List (Int × Int) :=
  pySet env.nativeModes

/-- `DisplayResUtil.get_modes_sorted` on the win32 path:
`sorted(cls.get_modes(), key=lambda x: x[0] * x[1], reverse=True)`.
Python sorting is stable, so it is the stable insertion sort by
`byAreaDesc`. -/
def DisplayResUtil.win32_get_modes_sorted (env : Env) : List (Int × Int) :=
  List.insertionSort byAreaDesc (DisplayResUtil.win32_get_modes env)

/-- `DisplayResUtil._win32_set width height depth` as an event trace:
`if not depth: depth = 32`; `if not width or not height:` issue
`ChangeDisplaySettings(None, 0)`; otherwise fetch a DEVMODE template via
`EnumDisplaySettings()` and issue `ChangeDisplaySettings(mode, 0)`. -/
def DisplayResUtil.win32_set (width height : Option Int) (depth : Int) :
    List Event :=
  let d := if depth = 0 then 32 else depth
  if truthy width && truthy height then
    [Event.native NativeCall.enumDisplaySettings,
     Event.native (NativeCall.changeDisplaySettingsMode
        (width.getD 0) (height.getD 0) d)]
  else
    [Event.native NativeCall.changeDisplaySettingsDefault]

/-- `DisplayResUtil.set` executed on win32, as an event trace.
Line by line: `current_mode = cls.get()` (one native query);
`if current_mode == (width, height):` print the already-set message and
return; `modes = cls.get_modes()` (native enumeration);
`if (width, height) not in modes:` print the unsupported message,
`"Available Modes:"`, re-enumerate via `get_modes_sorted` and print each
mode with the current one starred, then return; otherwise print the
success message and dispatch to `_win32_set`. -/
def DisplayResUtil.set_win32 (env : Env) (width height : Option Int)
    (depth : Int) : List Event :=
  Event.native NativeCall.getSystemMetrics ::
  if (some env.current.1, some env.current.2) = (width, height) then
    [Event.print ("Resolution is already set to " ++ fmtOpt width ++ " x "
        ++ fmtOpt height)]
  else
    Event.native NativeCall.enumDisplaySettings ::
    if pyMember (DisplayResUtil.win32_get_modes env) width height then
      Event.print (setMsg width height) ::
      DisplayResUtil.win32_set width height depth
    else
      Event.print (fmtOpt width ++ " x " ++ fmtOpt height
          ++ " is not an available mode.") ::
      Event.print "Available Modes:" ::
      Event.native NativeCall.enumDisplaySettings ::
      (DisplayResUtil.win32_get_modes_sorted env).map
        (fun m => Event.print (modeLine env.current m))

/-- `DisplayResUtil.get`: platform dispatch.  On win32 it returns the
queried pair; the linux and darwin stubs raise `NotImplementedError`;
on any other platform no branch matches and the method falls through,
returning `None`. -/
def DisplayResUtil.get (p : HostOS) (env : Env) :
    Except PyError (Option (Int × Int)) :=
  match p with
  | HostOS.win32 => Except.ok (some (DisplayResUtil.win32_get env))
  | HostOS.linux => Except.error PyError.notImplemented
  | HostOS.darwin => Except.error PyError.notImplemented
  | HostOS.other => Except.ok none

/-- `DisplayResUtil.get_modes`: platform dispatch, as for `get`. -/
def DisplayResUtil.get_modes (p : HostOS) (env : Env) :
    Except PyError (Option (List (Int × Int))) :=
  match p with
  | HostOS.win32 => Except.ok (some (DisplayResUtil.win32_get_modes env))
  | HostOS.linux => Except.error PyError.notImplemented
  | HostOS.darwin => Except.error PyError.notImplemented
  | HostOS.other => Except.ok none

/-- `DisplayResUtil.get_modes_sorted`: sorts the result of `get_modes`.
When `get_modes` returns `None` (unrecognised platform), `sorted(None)`
raises `TypeError`. -/
def DisplayResUtil.get_modes_sorted (p : HostOS) (env : Env) :
    Except PyError (List (Int × Int)) :=
  match DisplayResUtil.get_modes p env with
  | Except.error e => Except.error e
  | Except.ok none => Except.error PyError.typeError
  | Except.ok (some l) => Except.ok (List.insertionSort byAreaDesc l)

/-- `DisplayResUtil.set`: platform dispatch.  On win32 the full body runs
and produces a trace.  On linux and darwin the very first statement
`current_mode = cls.get()` raises `NotImplementedError`, before anything
is printed.  On any other platform `get()` returns `None`, the equality
test `None == (width, height)` is `False`, `get_modes()` returns `None`,
and the membership test `(width, height) not in None` raises `TypeError`,
again before anything is printed. -/
def DisplayResUtil.set (p : HostOS) (env : Env) (width height : Option Int)
    (depth : Int) : Except PyError (List Event) :=
  match p with
  | HostOS.win32 => Except.ok (DisplayResUtil.set_win32 env width height depth)
  | HostOS.linux => Except.error PyError.notImplemented
  | HostOS.darwin => Except.error PyError.notImplemented
  | HostOS.other => Except.error PyError.typeError

/-- The CLI argument groups: `--set W H`, `--current`, `--list`, or no
flag at all (argparse guarantees at most one of the mutually exclusive
flags is present). -/
inductive CliArgs where
  | setDims (w h : Int)
  | current
  | listModes
  | noFlags
deriving DecidableEq, Repr

/-- The `--current` output line: `f"Current Mode: {mode[0]} x {mode[1]}"`. -/
def currentModeLine (m : Int × Int) : String :=
  "Current Mode: " ++ toString m.1 ++ " x " ++ toString m.2

/-- Placeholder for the argparse-generated usage text printed by
`parser.print_help()`; its exact contents are produced by argparse and
play no role in any claim. -/
def helpText : String := "usage: DisplayResUtil"

/-- The `if __name__ == "__main__"` block.  There is no try/except
anywhere in it: an exception raised by a backend propagates out.  On an
error path the partial stdout written before the exception is not
tracked; the result is just the escaping exception.
`--set` calls `DisplayResUtil.set(*args.dimensions)` with the default
depth 32; `--current` prints the current-mode line (subscripting `None`
on an unrecognised platform raises `TypeError`); `--list` prints
`"Available Modes:"`, fetches `get_modes_sorted()` and `get()`, and
prints each mode with the current one starred; with no flags the help
text is printed. -/
def cliMain (p : HostOS) (env : Env) (args : CliArgs) :
    Except PyError (List Event) :=
  match args with
  | CliArgs.setDims w h => DisplayResUtil.set p env (some w) (some h) 32
  | CliArgs.current =>
    match DisplayResUtil.get p env with
    | Except.error e => Except.error e
    | Except.ok none => Except.error PyError.typeError
    | Except.ok (some m) => Except.ok [Event.print (currentModeLine m)]
  | CliArgs.listModes =>
    match DisplayResUtil.get_modes_sorted p env with
    | Except.error e => Except.error e
    | Except.ok sortedModes =>
      match DisplayResUtil.get p env with
      | Except.error e => Except.error e
      | Except.ok none =>
        Except.ok (Event.print "Available Modes:" ::
          sortedModes.map (fun m =>
            Event.print ("    " ++ toString m.1 ++ " x " ++ toString m.2)))
      | Except.ok (some cur) =>
        Except.ok (Event.print "Available Modes:" ::
          sortedModes.map (fun m => Event.print (modeLine cur m)))
  | CliArgs.noFlags => Except.ok [Event.print helpText]

/-- Concrete environment for the C1 counterexample: the current mode is
not a member of the enumerated mode set (the spec itself notes this
external invariant is best-effort and not enforced by the software). -/
def envC1 : Env := ⟨(800, 600), [(1920, 1080)]⟩

/-- Concrete environment matching the spec scenario: modes
{(1920,1080), (1280,720), (800,600)}, current (1280,720). -/
def envScenario : Env := ⟨(1280, 720), [(1920, 1080), (1280, 720), (800, 600)]⟩

/-- Concrete environment for the C9 counterexample: the native
enumeration reports a zero-sized mode, which the code does not filter. -/
def envC9 : Env := ⟨(1920, 1080), [(0, 0), (800, 600)]⟩

/-- Concrete environment with only positive native modes, for the C9
witness. -/
def envPos : Env := ⟨(1280, 720), [(1920, 1080), (800, 600)]⟩

/-! ### Helper lemmas -/

theorem applyCalls_append (a b : List Event) :
    applyCalls (a ++ b) = applyCalls a ++ applyCalls b := by
  simp [applyCalls]

theorem applyCalls_map_print (f : Int × Int → String) (l : List (Int × Int)) :
    applyCalls (l.map fun m => Event.print (f m)) = [] := by
  simp [applyCalls]

theorem mem_pySetInsert (acc : List (Int × Int)) (x y : Int × Int) :
    y ∈ pySetInsert acc x ↔ y ∈ acc ∨ y = x := by
  unfold pySetInsert
  split
  · constructor
    · exact Or.inl
    · rintro (h | rfl)
      · exact h
      · assumption
  · simp

theorem mem_foldl_pySetInsert (l acc : List (Int × Int)) (y : Int × Int) :
    y ∈ l.foldl pySetInsert acc ↔ y ∈ acc ∨ y ∈ l := by
  induction l generalizing acc with
  | nil => simp
  | cons x xs ih =>
    rw [List.foldl_cons, ih, mem_pySetInsert]
    simp [or_assoc]

theorem mem_win32_get_modes (env : Env) (y : Int × Int) :
    y ∈ DisplayResUtil.win32_get_modes env ↔ y ∈ env.nativeModes := by
  rw [DisplayResUtil.win32_get_modes, pySet, mem_foldl_pySetInsert]
  simp

theorem filter_orderedInsert_of_area_eq (c : Int) (x : Int × Int)
    (hx : area x = c) (l : List (Int × Int)) :
    (List.orderedInsert byAreaDesc x l).filter (fun m => decide (area m = c)) =
      x :: l.filter (fun m => decide (area m = c)) := by
  induction l with
  | nil => simp [hx]
  | cons y ys ih =>
    by_cases h : byAreaDesc x y
    · rw [List.orderedInsert, if_pos h]
      simp [hx]
    · have hy : area y ≠ c := by
        intro hc
        exact h (show byAreaDesc x y from le_of_eq (hc.trans hx.symm))
      rw [List.orderedInsert, if_neg h]
      simp [List.filter_cons, hy, ih]

theorem filter_orderedInsert_of_area_ne (c : Int) (x : Int × Int)
    (hx : area x ≠ c) (l : List (Int × Int)) :
    (List.orderedInsert byAreaDesc x l).filter (fun m => decide (area m = c)) =
      l.filter (fun m => decide (area m = c)) := by
  induction l with
  | nil => simp [hx]
  | cons y ys ih =>
    by_cases h : byAreaDesc x y
    · rw [List.orderedInsert, if_pos h]
      simp [hx]
    · rw [List.orderedInsert, if_neg h]
      simp [List.filter_cons, ih]

theorem filter_insertionSort_area (c : Int) (l : List (Int × Int)) :
    (List.insertionSort byAreaDesc l).filter (fun m => decide (area m = c)) =
      l.filter (fun m => decide (area m = c)) := by
  induction l with
  | nil => rfl
  | cons x xs ih =>
    rw [List.insertionSort]
    by_cases hx : area x = c
    · rw [filter_orderedInsert_of_area_eq c x hx, ih, List.filter_cons]
      simp [hx]
    · rw [filter_orderedInsert_of_area_ne c x hx, ih, List.filter_cons]
      simp [hx]

/-! ### Claim theorems -/

/-- Claim C4 (confirmed): `get_modes_sorted` returns a permutation of
`get_modes` sorted by area (width times height) in descending order,
with ties between equal-area modes kept in their original order
(stable sort). -/
theorem C4_get_modes_sorted_spec (env : Env) :
    List.Perm (DisplayResUtil.win32_get_modes_sorted env)
      (DisplayResUtil.win32_get_modes env) ∧
    List.Pairwise byAreaDesc (DisplayResUtil.win32_get_modes_sorted env) ∧
    ∀ c : Int,
      (DisplayResUtil.win32_get_modes_sorted env).filter
          (fun m => decide (area m = c)) =
        (DisplayResUtil.win32_get_modes env).filter
          (fun m => decide (area m = c)) := by
  refine ⟨List.perm_insertionSort byAreaDesc _, ?_, ?_⟩
  · exact List.sorted_insertionSort byAreaDesc _
  · intro c
    exact filter_insertionSort_area c _

/-- Claim C2 (confirmed): when the requested pair equals the current mode
queried at the start of the call, `set` prints the already-set message and
returns; the trace holds no enumeration and no apply call. -/
theorem C2_set_already_noop (env : Env) (w h d : Int)
    (hcur : env.current = (w, h)) :
    DisplayResUtil.set HostOS.win32 env (some w) (some h) d =
      Except.ok [Event.native NativeCall.getSystemMetrics,
        Event.print ("Resolution is already set to " ++ toString w ++ " x "
          ++ toString h)] ∧
    applyCalls (DisplayResUtil.set_win32 env (some w) (some h) d) = [] := by
  constructor
  · simp [DisplayResUtil.set, DisplayResUtil.set_win32, hcur, fmtOpt]
  · simp [DisplayResUtil.set_win32, hcur, fmtOpt, applyCalls]

/-- Witness for C2 at the spec scenario environment. -/
theorem C2_witness :
    envScenario.current = (1280, 720) ∧
    (DisplayResUtil.set HostOS.win32 envScenario (some 1280) (some 720) 32 =
      Except.ok [Event.native NativeCall.getSystemMetrics,
        Event.print ("Resolution is already set to " ++ toString (1280 : Int)
          ++ " x " ++ toString (720 : Int))] ∧
    applyCalls (DisplayResUtil.set_win32 envScenario (some 1280) (some 720) 32)
      = []) :=
  ⟨rfl, C2_set_already_noop envScenario 1280 720 32 rfl⟩

/-- Claim C1 (corrected): when the requested pair is absent from the mode
set AND differs from the current mode, `set` issues no apply call and
prints the unsupported message followed by the sorted mode list with the
current mode starred.  The extra hypothesis is forced: when the requested
pair is absent from the mode set but equals the current mode, the
already-set branch runs first (see the counterexample). -/
theorem C1_reject_unsupported (env : Env) (w h d : Int)
    (hmem : (w, h) ∉ DisplayResUtil.win32_get_modes env)
    (hne : env.current ≠ (w, h)) :
    DisplayResUtil.set HostOS.win32 env (some w) (some h) d =
      Except.ok (Event.native NativeCall.getSystemMetrics ::
        Event.native NativeCall.enumDisplaySettings ::
        Event.print (toString w ++ " x " ++ toString h
          ++ " is not an available mode.") ::
        Event.print "Available Modes:" ::
        Event.native NativeCall.enumDisplaySettings ::
        (DisplayResUtil.win32_get_modes_sorted env).map
          (fun m => Event.print (modeLine env.current m))) ∧
    applyCalls (DisplayResUtil.set_win32 env (some w) (some h) d) = [] := by
  have hc : ¬ ((some env.current.1, some env.current.2) =
      ((some w : Option Int), (some h : Option Int))) := by
    simp only [Prod.mk.injEq, Option.some.injEq, not_and]
    intro h1 h2
    exact absurd (by rw [← h1, ← h2]) hne
  have hm : ¬ pyMember (DisplayResUtil.win32_get_modes env) (some w) (some h) :=
    hmem
  constructor
  · simp [DisplayResUtil.set, DisplayResUtil.set_win32, hc, hm, fmtOpt]
  · simp [DisplayResUtil.set_win32, hc, hm, applyCalls]

/-- Counterexample for C1 as stated: in `envC1` the current mode (800, 600)
is not a member of the mode set, and `set(800, 600)` takes the already-set
branch, printing neither the unsupported message nor the mode list. -/
theorem C1_counterexample :
    ((800, 600) : Int × Int) ∉ DisplayResUtil.win32_get_modes envC1 ∧
    DisplayResUtil.set_win32 envC1 (some 800) (some 600) 32 =
      [Event.native NativeCall.getSystemMetrics,
       Event.print "Resolution is already set to 800 x 600"] ∧
    (Event.print "800 x 600 is not an available mode.") ∉
      DisplayResUtil.set_win32 envC1 (some 800) (some 600) 32 := by
  refine ⟨?_, ?_, ?_⟩ <;> decide

/-- Witness for C1 at the spec scenario: requesting (3000, 3000). -/
theorem C1_witness :
    ((3000, 3000) : Int × Int) ∉ DisplayResUtil.win32_get_modes envScenario ∧
    envScenario.current ≠ (3000, 3000) ∧
    (DisplayResUtil.set HostOS.win32 envScenario (some 3000) (some 3000) 32 =
      Except.ok (Event.native NativeCall.getSystemMetrics ::
        Event.native NativeCall.enumDisplaySettings ::
        Event.print (toString (3000 : Int) ++ " x " ++ toString (3000 : Int)
          ++ " is not an available mode.") ::
        Event.print "Available Modes:" ::
        Event.native NativeCall.enumDisplaySettings ::
        (DisplayResUtil.win32_get_modes_sorted envScenario).map
          (fun m => Event.print (modeLine envScenario.current m))) ∧
    applyCalls (DisplayResUtil.set_win32 envScenario (some 3000) (some 3000) 32)
      = []) :=
  ⟨by decide, by decide,
    C1_reject_unsupported envScenario 3000 3000 32 (by decide) (by decide)⟩

/-- Claim C3 (code bug): `set()` with both width and height omitted never
reaches the native default-reset call.  The membership guard intercepts
`(None, None)` first: the trace prints "None x None is not an available
mode." plus the mode list, and holds no `ChangeDisplaySettings` call at
all, although the dead else branch of `set` and the `None` branch of
`_win32_set` show the defaults reset was intended. -/
theorem C3_reset_never_reaches_native :
    DisplayResUtil.set_win32 envScenario none none 32 =
      [Event.native NativeCall.getSystemMetrics,
       Event.native NativeCall.enumDisplaySettings,
       Event.print "None x None is not an available mode.",
       Event.print "Available Modes:",
       Event.native NativeCall.enumDisplaySettings,
       Event.print "    1920 x 1080",
       Event.print "    1280 x 720 *",
       Event.print "    800 x 600"] ∧
    applyCalls (DisplayResUtil.set_win32 envScenario none none 32) = [] ∧
    (Event.native NativeCall.changeDisplaySettingsDefault) ∉
      DisplayResUtil.set_win32 envScenario none none 32 := by
  refine ⟨?_, ?_, ?_⟩ <;> decide

/-- Claim C8 (confirmed): when the requested pair is an advertised mode,
differs from the current mode, and both dimensions are positive (the data
model of the spec), `set` issues exactly one mode-change call, carrying
the requested width and height and the given depth, with depth 0 replaced
by 32 (the unset case is the default argument 32). -/
theorem C8_set_applies_once (env : Env) (w h d : Int)
    (hw : 0 < w) (hh : 0 < h)
    (hmem : (w, h) ∈ DisplayResUtil.win32_get_modes env)
    (hne : env.current ≠ (w, h)) :
    applyCalls (DisplayResUtil.set_win32 env (some w) (some h) d) =
      [NativeCall.changeDisplaySettingsMode w h (if d = 0 then 32 else d)] := by
  have hc : ¬ ((some env.current.1, some env.current.2) =
      ((some w : Option Int), (some h : Option Int))) := by
    simp only [Prod.mk.injEq, Option.some.injEq, not_and]
    intro h1 h2
    exact absurd (by rw [← h1, ← h2]) hne
  have hm : pyMember (DisplayResUtil.win32_get_modes env) (some w) (some h) :=
    hmem
  have hw0 : w ≠ 0 := ne_of_gt hw
  have hh0 : h ≠ 0 := ne_of_gt hh
  simp [DisplayResUtil.set_win32, DisplayResUtil.win32_set, hc, hm, truthy,
    hw0, hh0, applyCalls]

/-- Witness for C8 at the spec scenario: `set(1920, 1080)` with current
mode (1280, 720) issues one apply call with width 1920, height 1080,
depth 32. -/
theorem C8_witness :
    (0 : Int) < 1920 ∧ (0 : Int) < 1080 ∧
    ((1920, 1080) : Int × Int) ∈ DisplayResUtil.win32_get_modes envScenario ∧
    envScenario.current ≠ (1920, 1080) ∧
    applyCalls (DisplayResUtil.set_win32 envScenario (some 1920) (some 1080) 32)
      = [NativeCall.changeDisplaySettingsMode 1920 1080
          (if (32 : Int) = 0 then 32 else 32)] :=
  ⟨by decide, by decide, by decide, by decide,
    C8_set_applies_once envScenario 1920 1080 32 (by decide) (by decide)
      (by decide) (by decide)⟩

/-- Claim C10 (confirmed): on every execution of `set` whose trace holds
an apply call, the success message (explicit form when width and height
are truthy, defaults form otherwise) appears in the trace strictly before
every apply call: the trace splits as `p ++ print msg :: q` with no apply
call in `p` and all apply calls in `q`. -/
theorem C10_msg_printed_before_apply (env : Env) (width height : Option Int)
    (d : Int)
    (happly : applyCalls (DisplayResUtil.set_win32 env width height d) ≠ []) :
    ∃ p q, DisplayResUtil.set_win32 env width height d =
        p ++ Event.print (setMsg width height) :: q ∧
      applyCalls p = [] ∧
      applyCalls (DisplayResUtil.set_win32 env width height d) =
        applyCalls q := by
  by_cases hc : (some env.current.1, some env.current.2) = (width, height)
  · exact absurd (by simp [DisplayResUtil.set_win32, hc, applyCalls]) happly
  · by_cases hm : pyMember (DisplayResUtil.win32_get_modes env) width height
    · refine ⟨[Event.native NativeCall.getSystemMetrics,
        Event.native NativeCall.enumDisplaySettings],
        DisplayResUtil.win32_set width height d, ?_, rfl, ?_⟩
      · simp [DisplayResUtil.set_win32, hc, hm]
      · simp [DisplayResUtil.set_win32, hc, hm, applyCalls]
    · exact absurd
        (by simp [DisplayResUtil.set_win32, hc, hm, applyCalls]) happly

/-- Witness for C10 at the spec scenario: `set(1920, 1080)` reaches the
apply call and the success message precedes it. -/
theorem C10_witness :
    applyCalls (DisplayResUtil.set_win32 envScenario (some 1920) (some 1080) 32)
      ≠ [] ∧
    ∃ p q, DisplayResUtil.set_win32 envScenario (some 1920) (some 1080) 32 =
        p ++ Event.print (setMsg (some 1920) (some 1080)) :: q ∧
      applyCalls p = [] ∧
      applyCalls (DisplayResUtil.set_win32 envScenario (some 1920) (some 1080) 32)
        = applyCalls q :=
  ⟨by decide,
    C10_msg_printed_before_apply envScenario (some 1920) (some 1080) 32
      (by decide)⟩

/-- Claim C5 (corrected): the linux and darwin stubs make all three
operations fail, but with `NotImplementedError`, not with an
`UnsupportedPlatformError` (no such error exists in the code); on any
other host without a backend, `get` and `get_modes` fall through and
return `None` rather than failing, and `set` fails with `TypeError` at
the membership test. -/
theorem C5_stub_failures (env : Env) (width height : Option Int) (d : Int) :
    DisplayResUtil.get HostOS.linux env =
      Except.error PyError.notImplemented ∧
    DisplayResUtil.get_modes HostOS.linux env =
      Except.error PyError.notImplemented ∧
    DisplayResUtil.set HostOS.linux env width height d =
      Except.error PyError.notImplemented ∧
    DisplayResUtil.get HostOS.darwin env =
      Except.error PyError.notImplemented ∧
    DisplayResUtil.get_modes HostOS.darwin env =
      Except.error PyError.notImplemented ∧
    DisplayResUtil.set HostOS.darwin env width height d =
      Except.error PyError.notImplemented ∧
    DisplayResUtil.get HostOS.other env = Except.ok none ∧
    DisplayResUtil.get_modes HostOS.other env = Except.ok none ∧
    DisplayResUtil.set HostOS.other env width height d =
      Except.error PyError.typeError :=
  ⟨rfl, rfl, rfl, rfl, rfl, rfl, rfl, rfl, rfl⟩

/-- Counterexample for C5 as stated: on an unrecognised host `get`
returns a value (`None`) instead of failing, and on linux the failure is
`NotImplementedError`, which is not the `UnsupportedPlatformError` the
claim names. -/
theorem C5_counterexample :
    DisplayResUtil.get HostOS.other envScenario = Except.ok none ∧
    DisplayResUtil.get HostOS.linux envScenario =
      Except.error PyError.notImplemented ∧
    PyError.notImplemented ≠ PyError.unsupportedPlatform :=
  ⟨rfl, rfl, by decide⟩

/-- Claim C6 (corrected): the CLI entry point has no try/except, so a
backend exception propagates uncaught out of every command: on linux and
darwin each of the three flag groups ends with the escaping
`NotImplementedError`. -/
theorem C6_cli_errors_escape (env : Env) (w h : Int) :
    cliMain HostOS.linux env CliArgs.current =
      Except.error PyError.notImplemented ∧
    cliMain HostOS.linux env CliArgs.listModes =
      Except.error PyError.notImplemented ∧
    cliMain HostOS.linux env (CliArgs.setDims w h) =
      Except.error PyError.notImplemented ∧
    cliMain HostOS.darwin env CliArgs.current =
      Except.error PyError.notImplemented ∧
    cliMain HostOS.darwin env CliArgs.listModes =
      Except.error PyError.notImplemented ∧
    cliMain HostOS.darwin env (CliArgs.setDims w h) =
      Except.error PyError.notImplemented :=
  ⟨rfl, rfl, rfl, rfl, rfl, rfl⟩

/-- Counterexample for C6 as stated: on linux, `--current` ends with an
uncaught `NotImplementedError` escaping the CLI entry point, not with a
rendered message. -/
theorem C6_counterexample :
    cliMain HostOS.linux envScenario CliArgs.current =
      Except.error PyError.notImplemented := rfl

/-- Claim C7 (corrected): `--current` prints the current resolution, but
prefixed: the exact line is "Current Mode: <width> x <height>", not the
bare "<width> x <height>" form the claim states. -/
theorem C7_current_line_format (env : Env) :
    cliMain HostOS.win32 env CliArgs.current =
      Except.ok [Event.print ("Current Mode: " ++ toString env.current.1
        ++ " x " ++ toString env.current.2)] := rfl

/-- Counterexample for C7 as stated: with current mode (1280, 720) the
printed line is "Current Mode: 1280 x 720", which differs from
"1280 x 720". -/
theorem C7_counterexample :
    cliMain HostOS.win32 envScenario CliArgs.current =
      Except.ok [Event.print "Current Mode: 1280 x 720"] ∧
    "Current Mode: 1280 x 720" ≠ "1280 x 720" :=
  ⟨rfl, by decide⟩

/-- Claim C9 (corrected): `get_modes` returns exactly the deduplicated
pairs the native enumeration reports, with no positivity filtering; every
member has positive width and height provided every natively reported
mode does. -/
theorem C9_modes_positive_of_native_positive (env : Env)
    (hpos : ∀ m ∈ env.nativeModes, 0 < m.1 ∧ 0 < m.2) :
    ∀ m ∈ DisplayResUtil.win32_get_modes env, 0 < m.1 ∧ 0 < m.2 := by
  intro m hm
  exact hpos m ((mem_win32_get_modes env m).1 hm)

/-- Counterexample for C9 as stated: when the native enumeration reports
a (0, 0) mode, that mode is a member of the returned set. -/
theorem C9_counterexample :
    ((0, 0) : Int × Int) ∈ DisplayResUtil.win32_get_modes envC9 ∧
    ¬ ((0 : Int) < 0 ∧ (0 : Int) < 0) := by
  refine ⟨?_, ?_⟩ <;> decide

/-- Witness for C9 on an environment whose native modes are all
positive. -/
theorem C9_witness :
    (∀ m ∈ envPos.nativeModes, 0 < m.1 ∧ 0 < m.2) ∧
    ∀ m ∈ DisplayResUtil.win32_get_modes envPos, 0 < m.1 ∧ 0 < m.2 :=
  ⟨by decide, C9_modes_positive_of_native_positive envPos (by decide)⟩
